import Mathlib

/-!
Verification of the angular-ssr-demo repository: a hybrid-rendering HTTP
gateway consisting of a Transfer State Store with a fetch-with-cache
Data Fetch Facade (`DataService` in `data.service.ts`) and a dual-mode
document responder (`server.ts`).

The embedding below translates the relevant TypeScript into Lean:
each Observable-returning facade function is modelled as one subscription,
i.e. a pure function from (platform, network outcome, store) to
(emitted value, resulting store, number of network calls issued).
The Express `app.get(catch-all)` document handler is modelled as a function
from (environment, file-servability oracle, render outcome, request) to
(HTTP outcome, number of render invocations, number of sendFile attempts).
-/

/-- The `Product` interface from `data.service.ts`. -/
structure Product where
  id : Int
  name : String
  description : String
  price : Int
  category : String
deriving DecidableEq, Repr

/-- The `AboutInfo` interface from `data.service.ts`. -/
structure AboutInfo where
  title : String
  content : String
  lastUpdated : String
deriving DecidableEq, Repr

/-- The values this application stores in the Angular `TransferState`
(a heterogeneous string-keyed map in the source; this app only ever
stores `Product[]` or `AboutInfo`). -/
inductive TSValue where
  | products : List Product → TSValue
  | about : AboutInfo → TSValue
deriving DecidableEq, Repr

/-- Key from the source line `const PRODUCTS_KEY = makeStateKey(products)`. -/
def PRODUCTS_KEY : String := "products"

/-- Key from the source line `const ABOUT_KEY = makeStateKey(about)`. -/
def ABOUT_KEY : String := "about"

/-- The Angular `TransferState`: a request-scoped key/value store.
Represented as an association list; `set` prepends, so the most recent
write for a key shadows earlier ones (last write wins). -/
structure TransferState where
  store : List (String × TSValue)
deriving DecidableEq, Repr

/-- Operation `TransferState.hasKey(key)`. -/
def TransferState.hasKey (ts : TransferState) (k : String) : Bool :=
  (ts.store.lookup k).isSome

/-- Operation `TransferState.get(key, defaultValue)`: the stored value when the key
is present, otherwise the caller-supplied fallback; never raises. -/
def TransferState.get (ts : TransferState) (k : String) (fb : TSValue) : TSValue :=
  match ts.store.lookup k with
  | some v => v
  | none => fb

/-- Operation `TransferState.set(key, value)`. -/
def TransferState.set (ts : TransferState) (k : String) (v : TSValue) : TransferState :=
  ⟨(k, v) :: ts.store⟩

/-- The TypeScript generic instantiation `get<Product[]>` is an unchecked
cast; for a `TSValue` actually holding products it is the identity. The
mismatch branch (unreachable for stores written by this service, which
only ever puts `.products` under `PRODUCTS_KEY`) maps to the empty list. -/
def TSValue.castProducts : TSValue → List Product
  | .products l => l
  | .about _ => []

/-- The cast `get<AboutInfo>`; mismatch branch unreachable as above. -/
def TSValue.castAbout : TSValue → AboutInfo
  | .about a => a
  | .products _ => ⟨"", "", ""⟩

/-- Outcome of one subscription to a facade fetch: the emitted value, the
store afterwards, and how many network calls `http.get` issued (0 or 1). -/
structure FetchRun (α : Type) where
  value : α
  state : TransferState
  netCalls : Nat
deriving DecidableEq, Repr

namespace DataService

/-- Function `DataService.getProducts` (data.service.ts lines 87–111), one
subscription. `isServer` is `isPlatformServer(this.platformId)`; `net` is
the outcome of `http.get(/api/products)`: `some products` on success,
`none` when the call fails. The pipe is `tap` (write the store only on the
server) then `catchError` (emit `[]`; `tap` does not run on the fallback,
so the store is untouched on failure). -/
def getProducts (isServer : Bool) (net : Option (List Product))
    (ts : TransferState) : FetchRun (List Product) :=
  if ts.hasKey PRODUCTS_KEY then
    let stateProducts := (ts.get PRODUCTS_KEY (.products [])).castProducts
    ⟨stateProducts, ts, 0⟩
  else
    match net with
    | some products =>
        ⟨products, if isServer then ts.set PRODUCTS_KEY (.products products) else ts, 1⟩
    | none => ⟨[], ts, 1⟩

/-- The error fallback object built in the `catchError` of `getAboutInfo`;
`now` stands for `new Date().toISOString()`. -/
def aboutErrorFallback (now : String) : AboutInfo :=
  ⟨"About", "Failed to load content.", now⟩

/-- Function `DataService.getAboutInfo` (data.service.ts lines 116–142), one
subscription; same shape as `getProducts` with the about key, the
empty-strings `get` fallback, and the `catchError` fallback object. -/
def getAboutInfo (isServer : Bool) (net : Option AboutInfo) (now : String)
    (ts : TransferState) : FetchRun AboutInfo :=
  if ts.hasKey ABOUT_KEY then
    let stateAbout := (ts.get ABOUT_KEY (.about ⟨"", "", ""⟩)).castAbout
    ⟨stateAbout, ts, 0⟩
  else
    match net with
    | some about =>
        ⟨about, if isServer then ts.set ABOUT_KEY (.about about) else ts, 1⟩
    | none => ⟨aboutErrorFallback now, ts, 1⟩

end DataService

/-! ### server.ts -/

/-- Process environment, as read through `process.env[...]`. -/
structure Env where
  vars : List (String × String)
deriving DecidableEq, Repr

/-- Lookup `process.env[k]`: the value of the variable when set, else `none`. -/
def Env.get (e : Env) (k : String) : Option String :=
  e.vars.lookup k

/-- The check `process.env[DISABLE_SSR] === true-string`: the render-mode toggle,
evaluated identically in the request handler and in the startup block. -/
def disableSSRFrom (env : Env) : Bool :=
  env.get "DISABLE_SSR" == some "true"

/-- The extension alternation of the static-file regex in `app.get(catch-all)`:
`/\.(js|css|ico|png|jpg|jpeg|gif|svg|woff|woff2|ttf|eot)$/`. -/
def staticExtensions : List String :=
  ["js", "css", "ico", "png", "jpg", "jpeg", "gif", "svg",
   "woff", "woff2", "ttf", "eot"]

/-- The test `req.path.match(...)` is non-null exactly when the path
ends with a dot followed by one of the recognized extensions. -/
def isStaticFilePath (p : String) : Bool :=
  staticExtensions.any (fun ext => List.isSuffixOf ("." ++ ext).data p.data)

/-- Path `join(browserDistFolder, index.csr.html)` — the shell document.
The dist folder is a build-time path; kept symbolic. -/
def staticIndexHtml : String := "browser/index.csr.html"

/-- Path `join(browserDistFolder, index.html)` — the shell fallback file. -/
def fallbackHtml : String := "browser/index.html"

/-- The fields of an Express document request that `app.get(catch-all)` reads. -/
structure Request where
  protocol : String
  host : String
  originalUrl : String
  baseUrl : String
  path : String
deriving DecidableEq, Repr

/-- The absolute URL the handler passes to `commonEngine.render`:
`` `${protocol}://${headers.host}${originalUrl}` ``. -/
def renderUrl (req : Request) : String :=
  req.protocol ++ "://" ++ req.host ++ req.originalUrl

/-- How the `app.get(catch-all)` handler disposes of one request. -/
inductive Outcome where
  /-- Call `next()` — passed on to the static middleware / 404. -/
  | next
  /-- Call `res.sendFile(path)` succeeded — the named shell file was sent. -/
  | sentFile (path : String)
  /-- Call `res.send(html)` — the server-rendered document was sent. -/
  | send (html : String)
  /-- Call `next(err)` — the error handler produces an error response. -/
  | nextError (err : String)
deriving DecidableEq, Repr

/-- The full observable effect of one `app.get(catch-all)` invocation: the
response outcome, how many times `commonEngine.render` was invoked, and
how many `res.sendFile` attempts were made. -/
structure HandlerRun where
  outcome : Outcome
  renderCalls : Nat
  sendFileAttempts : Nat
deriving DecidableEq, Repr

/-- The `app.get(catch-all)` document handler (server.ts lines 144–189).
`fileOk path` tells whether `res.sendFile(path)` succeeds (its callback
receives no error); `render` is the settled result of the
`commonEngine.render` promise for this request: `.ok html` resolves to
`res.send(html)`, `.error err` rejects into `next(err)`. The toggle is
read from `env` at request-handling time, on every invocation. -/
def documentHandler (env : Env) (fileOk : String → Bool)
    (render : Except String String) (req : Request) : HandlerRun :=
  if isStaticFilePath req.path then
    ⟨.next, 0, 0⟩
  else
    let disableSSR := disableSSRFrom env
    if disableSSR then
      if fileOk staticIndexHtml then
        ⟨.sentFile staticIndexHtml, 0, 1⟩
      else if fileOk fallbackHtml then
        ⟨.sentFile fallbackHtml, 0, 2⟩
      else
        ⟨.nextError "static html", 0, 2⟩
    else
      match render with
      | .ok html => ⟨.send html, 1, 0⟩
      | .error err => ⟨.nextError err, 1, 0⟩

/-- What the `isMainModule` startup block (server.ts lines 201–216) does:
it always starts listening; `port` is `process.env[PORT] || 4000`
(`Sum.inl` the string when PORT is set and non-empty — JavaScript `||`
treats the empty string as falsy — otherwise `Sum.inr` the number 4000). -/
inductive StartupResult where
  | started (port : String ⊕ Nat) (disableSSR : Bool)
deriving DecidableEq, Repr

/-- The expression `process.env[PORT] || 4000`. -/
def resolvedPort (env : Env) : String ⊕ Nat :=
  match env.get "PORT" with
  | some s => if s = "" then Sum.inr 4000 else Sum.inl s
  | none => Sum.inr 4000

/-- The startup block: reads PORT and DISABLE_SSR, performs no validation
of either, and calls `app.listen` unconditionally. -/
def serverStartup (env : Env) : StartupResult :=
  .started (resolvedPort env) (disableSSRFrom env)

/-! ### Store lemmas -/

/-- A key just written is present. -/
theorem hasKey_set_self (ts : TransferState) (k : String) (v : TSValue) :
    (ts.set k v).hasKey k = true := by
  simp [TransferState.set, TransferState.hasKey, List.lookup]

/-- Reading a key just written returns the written value. -/
theorem get_set_self (ts : TransferState) (k : String) (v fb : TSValue) :
    (ts.set k v).get k fb = v := by
  simp [TransferState.set, TransferState.get, List.lookup]

/-! ### Claims about the Data Fetch Facade -/

/-- Claim C1: if the store already holds the key, both facade functions
return the stored value with no network call and no store change, in
either render mode; and in a server render pass a first fetch (network
success) followed by a second read of the same key yields the identical
value with exactly one network call in total, for both resources. -/
theorem claim_C1_cache_hit_and_exactly_once
    (cts : TransferState) (hp : cts.hasKey PRODUCTS_KEY = true)
    (ha : cts.hasKey ABOUT_KEY = true)
    (ts : TransferState) (hp0 : ts.hasKey PRODUCTS_KEY = false)
    (ts2 : TransferState) (ha0 : ts2.hasKey ABOUT_KEY = false)
    (v : List Product) (a : AboutInfo) (now now2 : String)
    (net2 : Option (List Product)) (neta2 : Option AboutInfo) :
    (∀ isServer net,
      DataService.getProducts isServer net cts
        = ⟨(cts.get PRODUCTS_KEY (.products [])).castProducts, cts, 0⟩) ∧
    (∀ isServer net,
      DataService.getAboutInfo isServer net now cts
        = ⟨(cts.get ABOUT_KEY (.about ⟨"", "", ""⟩)).castAbout, cts, 0⟩) ∧
    ((DataService.getProducts true net2
        (DataService.getProducts true (some v) ts).state).value
      = (DataService.getProducts true (some v) ts).value ∧
     (DataService.getProducts true (some v) ts).netCalls
       + (DataService.getProducts true net2
           (DataService.getProducts true (some v) ts).state).netCalls = 1) ∧
    ((DataService.getAboutInfo true neta2 now2
        (DataService.getAboutInfo true (some a) now ts2).state).value
      = (DataService.getAboutInfo true (some a) now ts2).value ∧
     (DataService.getAboutInfo true (some a) now ts2).netCalls
       + (DataService.getAboutInfo true neta2 now2
           (DataService.getAboutInfo true (some a) now ts2).state).netCalls = 1) := by
  refine ⟨fun isServer net => ?_, fun isServer net => ?_, ?_, ?_⟩
  · simp [DataService.getProducts, hp]
  · simp [DataService.getAboutInfo, ha]
  · simp [DataService.getProducts, hp0, hasKey_set_self, get_set_self,
      TSValue.castProducts]
  · simp [DataService.getAboutInfo, ha0, hasKey_set_self, get_set_self,
      TSValue.castAbout]

/-- Witness for C1 at concrete inputs: a store holding both keys, and an
empty store for the first-fetch scenario. -/
theorem claim_C1_cache_hit_and_exactly_once_witness :
    (TransferState.mk [(PRODUCTS_KEY, .products []), (ABOUT_KEY, .about ⟨"", "", ""⟩)]).hasKey
        PRODUCTS_KEY = true ∧
    (TransferState.mk [(PRODUCTS_KEY, .products []), (ABOUT_KEY, .about ⟨"", "", ""⟩)]).hasKey
        ABOUT_KEY = true ∧
    (TransferState.mk []).hasKey PRODUCTS_KEY = false ∧
    (TransferState.mk []).hasKey ABOUT_KEY = false ∧
    ((DataService.getProducts true none
        (DataService.getProducts true (some []) ⟨[]⟩).state).value
      = (DataService.getProducts true (some []) ⟨[]⟩).value ∧
     (DataService.getProducts true (some []) ⟨[]⟩).netCalls
       + (DataService.getProducts true none
           (DataService.getProducts true (some []) ⟨[]⟩).state).netCalls = 1) := by
  refine ⟨by decide, by decide, by decide, by decide, ?_⟩
  exact (claim_C1_cache_hit_and_exactly_once
    ⟨[(PRODUCTS_KEY, .products []), (ABOUT_KEY, .about ⟨"", "", ""⟩)]⟩
    (by decide) (by decide) ⟨[]⟩ (by decide) ⟨[]⟩ (by decide)
    [] ⟨"", "", ""⟩ "" "" none none).2.2.1

/-- Claim C2: a successful network fetch writes the fetched value into the
store under the resource key when running on the server, and leaves the
store unchanged when running on the client, for both facade functions. -/
theorem claim_C2_server_writes_client_does_not
    (ts : TransferState) (v : List Product) (a : AboutInfo) (now : String)
    (hp : ts.hasKey PRODUCTS_KEY = false) (ha : ts.hasKey ABOUT_KEY = false) :
    ((DataService.getProducts true (some v) ts).state
        = ts.set PRODUCTS_KEY (.products v) ∧
     (DataService.getProducts false (some v) ts).state = ts) ∧
    ((DataService.getAboutInfo true (some a) now ts).state
        = ts.set ABOUT_KEY (.about a) ∧
     (DataService.getAboutInfo false (some a) now ts).state = ts) := by
  refine ⟨⟨?_, ?_⟩, ⟨?_, ?_⟩⟩ <;>
    simp [DataService.getProducts, DataService.getAboutInfo, hp, ha]

/-- Witness for C2: the empty store, one product, one about record. -/
theorem claim_C2_server_writes_client_does_not_witness :
    (TransferState.mk []).hasKey PRODUCTS_KEY = false ∧
    (TransferState.mk []).hasKey ABOUT_KEY = false ∧
    (DataService.getProducts true (some [⟨1, "n", "d", 0, "c"⟩]) ⟨[]⟩).state
      = (TransferState.mk []).set PRODUCTS_KEY (.products [⟨1, "n", "d", 0, "c"⟩]) := by
  refine ⟨by decide, by decide, ?_⟩
  exact (claim_C2_server_writes_client_does_not ⟨[]⟩ [⟨1, "n", "d", 0, "c"⟩]
    ⟨"t", "c", "u"⟩ "u" (by decide) (by decide)).1.1

/-- Claim C3: when the network fetch fails, each facade function resolves
to its caller-supplied fallback value (the empty list for products, the
fixed error record for about) instead of re-raising, and the store is not
written, on either platform; the functions are total, so the failure is
never surfaced to the render. -/
theorem claim_C3_failure_fallback_no_write
    (ts : TransferState) (now : String) (isServer : Bool)
    (hp : ts.hasKey PRODUCTS_KEY = false) (ha : ts.hasKey ABOUT_KEY = false) :
    (DataService.getProducts isServer none ts
        = ⟨[], ts, 1⟩) ∧
    (DataService.getAboutInfo isServer none now ts
        = ⟨DataService.aboutErrorFallback now, ts, 1⟩) := by
  constructor <;> simp [DataService.getProducts, DataService.getAboutInfo, hp, ha]

/-- Witness for C3 at the empty store. -/
theorem claim_C3_failure_fallback_no_write_witness :
    (TransferState.mk []).hasKey PRODUCTS_KEY = false ∧
    (TransferState.mk []).hasKey ABOUT_KEY = false ∧
    DataService.getProducts true none ⟨[]⟩ = ⟨[], ⟨[]⟩, 1⟩ := by
  refine ⟨by decide, by decide, ?_⟩
  exact (claim_C3_failure_fallback_no_write ⟨[]⟩ "now" true (by decide) (by decide)).1

/-- Claim C8: from the returned value alone, a caller cannot distinguish a
failed fetch from a legitimate response that happens to equal the
fallback: for every store and platform, the value emitted on network
failure equals the value emitted when the backing API returns the
fallback data (the empty list for products, the error record for about). -/
theorem claim_C8_failure_indistinguishable (ts : TransferState)
    (isServer : Bool) (now : String) :
    (DataService.getProducts isServer none ts).value
      = (DataService.getProducts isServer (some []) ts).value ∧
    (DataService.getAboutInfo isServer none now ts).value
      = (DataService.getAboutInfo isServer
          (some (DataService.aboutErrorFallback now)) now ts).value := by
  constructor <;>
    simp [DataService.getProducts, DataService.getAboutInfo] <;>
    split <;> simp

/-! ### Claims about the document responder and startup -/

/-- Claim C4: for every document request (non-static path) the toggle is
read from the environment at request-handling time and dispatch follows
it: with the toggle set to its disabling value the render engine is not
invoked (zero render calls, and the run is independent of the render
outcome) and the response is the static shell file when it is servable;
otherwise — including the default, unset toggle — the request is rendered
by the engine (exactly one render call, and a successful render is sent). -/
theorem claim_C4_render_mode_dispatch
    (env : Env) (fileOk : String → Bool) (render render2 : Except String String)
    (req : Request) (hdoc : isStaticFilePath req.path = false) :
    (env.get "DISABLE_SSR" = none → disableSSRFrom env = false) ∧
    (disableSSRFrom env = true →
      (documentHandler env fileOk render req).renderCalls = 0 ∧
      documentHandler env fileOk render req
        = documentHandler env fileOk render2 req ∧
      (fileOk staticIndexHtml = true →
        (documentHandler env fileOk render req).outcome
          = .sentFile staticIndexHtml)) ∧
    (disableSSRFrom env = false →
      (documentHandler env fileOk render req).renderCalls = 1 ∧
      ∀ html, render = .ok html →
        (documentHandler env fileOk render req).outcome = .send html) := by
  refine ⟨?_, fun hssr => ?_, fun hssr => ?_⟩
  · intro h; simp [disableSSRFrom, h]
  · refine ⟨?_, ?_, fun hfile => ?_⟩
    · cases h1 : fileOk staticIndexHtml <;> cases h2 : fileOk fallbackHtml <;>
        simp [documentHandler, hdoc, hssr, h1, h2]
    · simp [documentHandler, hdoc, hssr]
    · simp [documentHandler, hdoc, hssr, hfile]
  · refine ⟨?_, fun html hr => ?_⟩ <;>
      cases render <;> simp_all [documentHandler, hdoc, hssr]

/-- Witness for C4: a disabled-toggle environment, a servable shell file
and a root-path request. -/
theorem claim_C4_render_mode_dispatch_witness :
    isStaticFilePath "/" = false ∧
    disableSSRFrom ⟨[("DISABLE_SSR", "true")]⟩ = true ∧
    (fun _ => true) staticIndexHtml = true ∧
    (documentHandler ⟨[("DISABLE_SSR", "true")]⟩ (fun _ => true)
        (Except.ok "html") ⟨"http", "localhost", "/", "", "/"⟩).outcome
      = .sentFile staticIndexHtml := by
  refine ⟨by decide, by decide, by decide, ?_⟩
  exact ((claim_C4_render_mode_dispatch ⟨[("DISABLE_SSR", "true")]⟩ (fun _ => true)
    (Except.ok "html") (Except.ok "other") ⟨"http", "localhost", "/", "", "/"⟩
    (by decide)).2.1 (by decide)).2.2 (by decide)

/-- Claim C5: in server-render mode a failed render is propagated to the
error handler — the outcome is an error response carrying the render
error, never the static shell, and the engine is invoked exactly once
(no retry). -/
theorem claim_C5_render_failure_is_error
    (env : Env) (fileOk : String → Bool) (err : String) (req : Request)
    (hdoc : isStaticFilePath req.path = false)
    (hssr : disableSSRFrom env = false) :
    (documentHandler env fileOk (.error err) req).outcome = .nextError err ∧
    (∀ p, (documentHandler env fileOk (.error err) req).outcome ≠ .sentFile p) ∧
    (documentHandler env fileOk (.error err) req).renderCalls = 1 := by
  refine ⟨?_, fun p => ?_, ?_⟩ <;> simp [documentHandler, hdoc, hssr]

/-- Witness for C5: default environment, failing render, root path. -/
theorem claim_C5_render_failure_is_error_witness :
    isStaticFilePath "/" = false ∧
    disableSSRFrom ⟨[]⟩ = false ∧
    (documentHandler ⟨[]⟩ (fun _ => true) (.error "boom")
        ⟨"http", "localhost", "/", "", "/"⟩).outcome = .nextError "boom" := by
  refine ⟨by decide, by decide, ?_⟩
  exact (claim_C5_render_failure_is_error ⟨[]⟩ (fun _ => true) "boom"
    ⟨"http", "localhost", "/", "", "/"⟩ (by decide) (by decide)).1

/-- Claim C6: the handler classifies paths by the fixed extension list: a
path ending in a recognized static extension is passed on via `next()`
untouched (no render, no send), and every other path is handled as a
document request (the outcome is never a plain `next()`). -/
theorem claim_C6_static_classification
    (env : Env) (fileOk : String → Bool) (render : Except String String)
    (req : Request) :
    (isStaticFilePath req.path
      = staticExtensions.any
          (fun ext => List.isSuffixOf ("." ++ ext).data req.path.data)) ∧
    (isStaticFilePath req.path = true →
      documentHandler env fileOk render req = ⟨.next, 0, 0⟩) ∧
    (isStaticFilePath req.path = false →
      (documentHandler env fileOk render req).outcome ≠ .next) := by
  refine ⟨rfl, fun hs => ?_, fun hd => ?_⟩
  · simp [documentHandler, hs]
  · simp only [documentHandler, hd, Bool.false_eq_true, if_false]
    split
    · split <;> simp <;> split <;> simp
    · cases render <;> simp

/-- Witness for C6: a stylesheet path is passed on via `next()`. -/
theorem claim_C6_static_classification_witness :
    isStaticFilePath "/styles.css" = true ∧
    documentHandler ⟨[]⟩ (fun _ => true) (Except.ok "html")
        ⟨"http", "localhost", "/styles.css", "", "/styles.css"⟩
      = ⟨.next, 0, 0⟩ := by
  refine ⟨by decide, ?_⟩
  exact (claim_C6_static_classification ⟨[]⟩ (fun _ => true) (Except.ok "html")
    ⟨"http", "localhost", "/styles.css", "", "/styles.css"⟩).2.1 (by decide)

/-- Counterexample to claim C7: with the invalid PORT value "abc" the
startup block does not fail and does not prevent the server from
starting — it calls listen, passing the string through unvalidated. -/
theorem claim_C7_counterexample :
    serverStartup ⟨[("PORT", "abc")]⟩
      = .started (Sum.inl "abc") false := by decide

/-- Claim C7 amended: the startup block validates neither value and
always starts the server: with no PORT set, or PORT set to the empty
string (falsy under the JavaScript || operator), it listens on 4000; any
other PORT string, valid or not, is passed through to listen; with no
toggle set server rendering is enabled, and no toggle value is ever
rejected. -/
theorem claim_C7_startup_no_validation (env : Env) :
    serverStartup env = .started (resolvedPort env) (disableSSRFrom env) ∧
    (env.get "PORT" = none → resolvedPort env = Sum.inr 4000) ∧
    (env.get "PORT" = some "" → resolvedPort env = Sum.inr 4000) ∧
    (∀ s, s ≠ "" → env.get "PORT" = some s → resolvedPort env = Sum.inl s) ∧
    (env.get "DISABLE_SSR" = none → disableSSRFrom env = false) := by
  refine ⟨rfl, fun h => ?_, fun h => ?_, fun s hs h => ?_, fun h => ?_⟩
  · simp [resolvedPort, h]
  · simp [resolvedPort, h]
  · simp [resolvedPort, h, hs]
  · simp [disableSSRFrom, h]

/-- Witness for the amended C7 at the empty environment. -/
theorem claim_C7_startup_no_validation_witness :
    (Env.mk []).get "PORT" = none ∧ resolvedPort ⟨[]⟩ = Sum.inr 4000 :=
  ⟨rfl, (claim_C7_startup_no_validation ⟨[]⟩).2.1 rfl⟩

/-- Counterexample to claim C9: in shell mode, when index.csr.html is not
servable the handler makes a second response attempt — the fallback
sendFile of index.html — so a single request sees two attempts. -/
theorem claim_C9_counterexample :
    ((documentHandler ⟨[("DISABLE_SSR", "true")]⟩ (fun _ => false)
        (Except.ok "html")
        ⟨"http", "localhost", "/", "", "/"⟩).sendFileAttempts = 2) ∧
    ¬ ((documentHandler ⟨[("DISABLE_SSR", "true")]⟩ (fun _ => false)
        (Except.ok "html")
        ⟨"http", "localhost", "/", "", "/"⟩).sendFileAttempts ≤ 1) := by
  decide

/-- Claim C9 amended: the responder never retries the render (at most one
engine invocation per request) and makes at most two response attempts; a
second attempt occurs only in shell mode, when sending index.csr.html
failed and index.html is tried once as a fallback. -/
theorem claim_C9_attempt_bounds
    (env : Env) (fileOk : String → Bool) (render : Except String String)
    (req : Request) :
    (documentHandler env fileOk render req).renderCalls ≤ 1 ∧
    (documentHandler env fileOk render req).sendFileAttempts ≤ 2 ∧
    ((documentHandler env fileOk render req).sendFileAttempts = 2 →
      disableSSRFrom env = true ∧ fileOk staticIndexHtml = false) := by
  cases hdoc : isStaticFilePath req.path <;>
    cases hssr : disableSSRFrom env <;>
      cases h1 : fileOk staticIndexHtml <;>
        cases h2 : fileOk fallbackHtml <;>
          cases render <;>
            simp [documentHandler, hdoc, hssr, h1, h2]

/-- Witness for the amended C9, discharging its implication at the run
that makes two sendFile attempts. -/
theorem claim_C9_attempt_bounds_witness :
    disableSSRFrom ⟨[("DISABLE_SSR", "true")]⟩ = true ∧
    (fun _ => false : String → Bool) staticIndexHtml = false :=
  (claim_C9_attempt_bounds ⟨[("DISABLE_SSR", "true")]⟩ (fun _ => false)
    (Except.ok "h") ⟨"http", "localhost", "/x", "", "/x"⟩).2.2 (by decide)

/-- Claim C10: the toggle selects shell mode exactly when DISABLE_SSR is
the string true: the boolean is true iff the environment holds that exact
value; representative other values (TRUE, 1, yes, and unset) all yield
false, and the dispatcher then invokes the render engine for document
requests; no toggle value is rejected — startup always proceeds. -/
theorem claim_C10_toggle_exact_string (env : Env) :
    (disableSSRFrom env = true ↔ env.get "DISABLE_SSR" = some "true") ∧
    disableSSRFrom ⟨[("DISABLE_SSR", "TRUE")]⟩ = false ∧
    disableSSRFrom ⟨[("DISABLE_SSR", "1")]⟩ = false ∧
    disableSSRFrom ⟨[("DISABLE_SSR", "yes")]⟩ = false ∧
    disableSSRFrom ⟨[]⟩ = false ∧
    (env.get "DISABLE_SSR" ≠ some "true" →
      ∀ fileOk render req, isStaticFilePath req.path = false →
        (documentHandler env fileOk render req).renderCalls = 1) ∧
    serverStartup env = .started (resolvedPort env) (disableSSRFrom env) := by
  have hiff : disableSSRFrom env = true ↔ env.get "DISABLE_SSR" = some "true" := by
    simp [disableSSRFrom]
  refine ⟨hiff, by decide, by decide, by decide, by decide,
    fun hne fileOk render req hdoc => ?_, rfl⟩
  have hf : disableSSRFrom env = false := by
    cases hb : disableSSRFrom env
    · rfl
    · exact absurd (hiff.mp hb) hne
  cases render <;> simp [documentHandler, hdoc, hf]

/-- Witness for C10: the exact string true enables shell mode. -/
theorem claim_C10_toggle_exact_string_witness :
    disableSSRFrom ⟨[("DISABLE_SSR", "true")]⟩ = true :=
  (claim_C10_toggle_exact_string ⟨[("DISABLE_SSR", "true")]⟩).1.mpr (by decide)
